import Mathlib

/-!
Verification of the ticru.io developer-orchestration tool against its
specification.  The embedding translates the three Python sources:

* `build-system.py` — the sequential build pipeline (`BuildSystem`);
* `ticru-cli.py` — the `run` supervisor, its signal handler and the
  `status` probe (`TicruCli`);
* `api-server.py` — the `analyze_sentiment` endpoint (`ApiServer`).
-/

namespace BuildSystem

/-- Outcome of one pipeline step, derived from whether `main` reached the
step and what its function returned (`build-system.py` only tracks the
running `success` boolean; `NotRun` is a step skipped by the short-circuit
of `success = success and step()`). -/
inductive Outcome
  | notRun
  | success
  | failure
deriving DecidableEq

/-- Result of executing one step function of `build-system.py`:
`Except.ok b` is a normal return of the boolean `b` (e.g. `lint_code`,
`type_check`), `Except.error c` is a step that kills the whole process with
`sys.exit(c)` — which is what `run_command(..., check=True)` does on a
`CalledProcessError` (lines 49-53), reached from `install_npm_dependencies`
and `build_frontend`. -/
abbrev StepRes := Except Nat Bool

/-- The accumulation loop of `main` (build-system.py lines 216-235),
generalised from the fixed chain of `if args.x or args.all:` blocks to a
list of steps: each block runs `success = success and step()`.  Python's
`and` short-circuits, so once `success` is `False` no later step function
is called (its outcome stays `notRun` and `success` stays `False`); while
`success` is `True` the step runs and either returns a boolean or exits the
process (`Except.error`). -/
def runChain : List StepRes → Bool → Except Nat (List Outcome × Bool)
  | [], succ => Except.ok ([], succ)
  | _ :: rest, false =>
      Except.ok (Outcome.notRun :: rest.map (fun _ => Outcome.notRun), false)
  | r :: rest, true =>
      match r with
      | Except.error c => Except.error c
      | Except.ok b =>
          match runChain rest b with
          | Except.error c => Except.error c
          | Except.ok p =>
              Except.ok ((if b then Outcome.success else Outcome.failure) :: p.1, p.2)

/-- The surrounding `main` (build-system.py lines 208-249): the dependency
check exits with code 1 before any step when it fails (lines 211-213);
then the chain runs; `Except.ok` means the final Build Summary block
(lines 237-249) is reached, which prints the duration and the overall
outcome and exits 0 on success, 1 on failure.  `Except.error c` is a
`sys.exit(c)` that happens before the summary. -/
def build_main (depsOk : Bool) (steps : List StepRes) :
    Except Nat ((List Outcome × Bool) × Nat) :=
  if depsOk then
    match runChain steps true with
    | Except.error c => Except.error c
    | Except.ok p => Except.ok (p, if p.2 then 0 else 1)
  else
    Except.error 1

/-- The action flags of `main`'s argument parser (build-system.py lines
190-197). -/
structure BuildArgs where
  clean : Bool
  install : Bool
  lint : Bool
  typeCheck : Bool
  build : Bool
  test : Bool
  all : Bool
deriving DecidableEq

/-- The `any([...])` test of build-system.py line 202. -/
def anySelected (a : BuildArgs) : Bool :=
  a.clean || a.install || a.lint || a.typeCheck || a.build || a.test || a.all

/-- Lines 201-203: "If no specific action, run all" — an empty selection is
coerced to `--all`. -/
def effectiveArgs (a : BuildArgs) : BuildArgs :=
  if anySelected a then a
  else ⟨a.clean, a.install, a.lint, a.typeCheck, a.build, a.test, true⟩

/-- The pipeline step functions of build-system.py, in the order `main`
chains them (lines 216-235). -/
inductive StepId
  | cleanBuild
  | installNpm
  | installPy
  | lintCode
  | typeCheckStep
  | buildFrontend
  | genBuildInfo
  | testCode
deriving DecidableEq

/-- Which step functions the `if args.x or args.all:` blocks of
build-system.py lines 216-235 select, in order. -/
def selectedSteps (a : BuildArgs) : List StepId :=
  (if a.clean || a.all then [StepId.cleanBuild] else []) ++
  (if a.install || a.all then [StepId.installNpm, StepId.installPy] else []) ++
  (if a.lint || a.all then [StepId.lintCode] else []) ++
  (if a.typeCheck || a.all then [StepId.typeCheckStep] else []) ++
  (if a.build || a.all then [StepId.buildFrontend, StepId.genBuildInfo] else []) ++
  (if a.test || a.all then [StepId.testCode] else [])

/-- A parser state with no action flag set (plain `python3 build-system.py`). -/
def noArgs : BuildArgs := ⟨false, false, false, false, false, false, false⟩

/-- The parser state produced by `--all` alone. -/
def allArgs : BuildArgs := ⟨false, false, false, false, false, false, true⟩

/-- With `success` already `False`, no step function runs: every remaining
outcome is `notRun` and the flag stays `False`. -/
theorem runChain_notRun_all (steps : List StepRes) :
    runChain steps false =
      Except.ok (steps.map (fun _ => Outcome.notRun), false) := by
  cases steps with
  | nil => rfl
  | cons r rest => rfl

/-- Every position of the all-`notRun` outcome list reads `notRun`. -/
theorem map_const_get (l : List StepRes) (j : Nat) (h : j < l.length) :
    (l.map (fun _ => Outcome.notRun)).get? j = some Outcome.notRun := by
  induction l generalizing j with
  | nil => exact absurd h (Nat.not_lt_zero j)
  | cons a as ih =>
    cases j with
    | zero => rfl
    | succ j =>
      have hj : j < as.length := by
        have := h
        simp only [List.length_cons] at this
        omega
      exact ih j hj

/-- Core lemma: whenever the chain completes with a `failure` recorded at
position `i`, the final flag is `false` and every later outcome is
`notRun`. -/
theorem runChain_failure_aux :
    ∀ (steps : List StepRes) (succ : Bool) (outs : List Outcome) (fin : Bool)
      (i : Nat),
      runChain steps succ = Except.ok (outs, fin) →
      outs.get? i = some Outcome.failure →
      fin = false ∧
        ∀ j, i < j → j < outs.length → outs.get? j = some Outcome.notRun := by
  intro steps
  induction steps with
  | nil =>
    intro succ outs fin i hrun hfail
    simp only [runChain, Except.ok.injEq, Prod.mk.injEq] at hrun
    obtain ⟨ho, _⟩ := hrun
    rw [← ho] at hfail
    simp at hfail
  | cons r rest ih =>
    intro succ outs fin i hrun hfail
    cases succ with
    | false =>
      simp only [runChain, Except.ok.injEq, Prod.mk.injEq] at hrun
      obtain ⟨ho, hf⟩ := hrun
      refine ⟨hf.symm, ?_⟩
      intro j hij hjlen
      rw [← ho]
      cases j with
      | zero => rfl
      | succ j =>
        have hj : j < rest.length := by
          rw [← ho] at hjlen
          simp only [List.length_cons, List.length_map] at hjlen
          omega
        simpa using map_const_get rest j hj
    | true =>
      cases r with
      | error c => simp [runChain] at hrun
      | ok b =>
        rcases hrec : runChain rest b with c | p
        · rw [runChain.eq_def] at hrun
          simp only [hrec] at hrun
          exact absurd hrun (by simp)
        · obtain ⟨outs1, fin1⟩ := p
          rw [runChain.eq_def] at hrun
          simp only [hrec, Except.ok.injEq, Prod.mk.injEq] at hrun
          obtain ⟨ho, hf⟩ := hrun
          cases i with
          | zero =>
            rw [← ho] at hfail
            cases b with
            | true => simp at hfail
            | false =>
              rw [runChain_notRun_all] at hrec
              have hinj : rest.map (fun _ => Outcome.notRun) = outs1 ∧
                  false = fin1 := by
                simpa using hrec
              obtain ⟨ho1, hf1⟩ := hinj
              refine ⟨by rw [← hf, ← hf1], ?_⟩
              intro j hij hjlen
              rw [← ho]
              cases j with
              | zero => exact absurd hij (by omega)
              | succ j =>
                have hj : j < rest.length := by
                  rw [← ho] at hjlen
                  rw [← ho1] at hjlen
                  simp only [List.length_cons, List.length_map] at hjlen
                  omega
                rw [← ho1]
                simpa using map_const_get rest j hj
          | succ i1 =>
            rw [← ho] at hfail
            have hfail1 : outs1.get? i1 = some Outcome.failure := by
              simpa using hfail
            obtain ⟨hfin1, hrest⟩ := ih b outs1 fin1 i1 hrec hfail1
            refine ⟨by rw [← hf, hfin1], ?_⟩
            intro j hij hjlen
            rw [← ho]
            cases j with
            | zero => exact absurd hij (by omega)
            | succ j =>
              have hj : j < outs1.length := by
                rw [← ho] at hjlen
                simp only [List.length_cons] at hjlen
                omega
              simpa using hrest j (by omega) hj

end BuildSystem

/-- C2: in the pipeline of build-system.py every step is chained with
`success = success and step()`, so a step whose outcome is `Failure`
prevents every later step from running (their outcomes stay `NotRun`) and
forces the overall success flag to `false`. -/
theorem BuildSystem.required_failure_stops_pipeline
    (steps : List BuildSystem.StepRes) (outs : List BuildSystem.Outcome)
    (fin : Bool) (i : Nat)
    (hrun : BuildSystem.runChain steps true = Except.ok (outs, fin))
    (hfail : outs.get? i = some BuildSystem.Outcome.failure) :
    fin = false ∧
      ∀ j, i < j → j < outs.length →
        outs.get? j = some BuildSystem.Outcome.notRun :=
  BuildSystem.runChain_failure_aux steps true outs fin i hrun hfail

/-- Witness for C2: the spec's example `[A(pass), B(fail), C(pass)]` gives
`A = Success`, `B = Failure`, `C = NotRun` and overall `false`. -/
theorem BuildSystem.required_failure_stops_pipeline_witness :
    false = false ∧
      ∀ j, 1 < j →
        j < ([BuildSystem.Outcome.success, BuildSystem.Outcome.failure,
              BuildSystem.Outcome.notRun] : List BuildSystem.Outcome).length →
        ([BuildSystem.Outcome.success, BuildSystem.Outcome.failure,
          BuildSystem.Outcome.notRun] : List BuildSystem.Outcome).get? j =
          some BuildSystem.Outcome.notRun :=
  BuildSystem.required_failure_stops_pipeline
    [Except.ok true, Except.ok false, Except.ok true]
    [BuildSystem.Outcome.success, BuildSystem.Outcome.failure,
      BuildSystem.Outcome.notRun] false 1 rfl rfl

/-- C3 evidence: `run_command` is called with `check=True` from
`install_npm_dependencies` and `build_frontend`, so a non-zero exit of one
of those commands runs `sys.exit(1)` inside `run_command` (build-system.py
lines 49-53): the pipeline aborts mid-flight and the Build Summary is
never produced.  The dependency check aborts the same way (lines 211-213).
Here: clean passes, then `npm install` fails — `build_main` ends in
`Except.error 1`, not in a summary-bearing `Except.ok`. -/
theorem BuildSystem.build_aborts_mid_flight_without_summary :
    BuildSystem.build_main true
        [Except.ok true, Except.error 1, Except.ok true, Except.ok true] =
      Except.error 1 ∧
    BuildSystem.build_main false [Except.ok true] = Except.error 1 ∧
    BuildSystem.build_main true [Except.ok true, Except.ok false] =
      Except.ok (([BuildSystem.Outcome.success, BuildSystem.Outcome.failure],
        false), 1) :=
  ⟨rfl, rfl, rfl⟩

/-- C6 counterexample: for `[A(pass), B(fail), C(pass)]` — where B's
command is run with `check` disabled, so its failure does not abort the
process, the closest thing the code has to a non-required step — the chain
yields `A = Success`, `B = Failure`, `C = NotRun`, overall `false`, and NOT
the claimed all-three-executed, overall-`true` result. -/
theorem BuildSystem.optional_step_claim_false :
    BuildSystem.runChain [Except.ok true, Except.ok false, Except.ok true]
        true =
      Except.ok ([BuildSystem.Outcome.success, BuildSystem.Outcome.failure,
        BuildSystem.Outcome.notRun], false) ∧
    ¬ (BuildSystem.runChain [Except.ok true, Except.ok false, Except.ok true]
        true =
      Except.ok ([BuildSystem.Outcome.success, BuildSystem.Outcome.failure,
        BuildSystem.Outcome.success], true)) := by
  refine ⟨rfl, ?_⟩
  intro h
  have h0 : BuildSystem.runChain
      [Except.ok true, Except.ok false, Except.ok true] true =
      Except.ok ([BuildSystem.Outcome.success, BuildSystem.Outcome.failure,
        BuildSystem.Outcome.notRun], false) := rfl
  rw [h0] at h
  simp at h

/-- C6 (as amended): the pipeline of build-system.py has no non-required
steps — after any step fails (here B, a step whose failing command is run
with `check` disabled so the process survives), the following step is never
executed, whatever it is (even one that would abort the process), and the
overall flag is `false`. -/
theorem BuildSystem.nonrequired_failure_still_blocks
    (c : BuildSystem.StepRes) :
    BuildSystem.runChain [Except.ok true, Except.ok false, c] true =
      Except.ok ([BuildSystem.Outcome.success, BuildSystem.Outcome.failure,
        BuildSystem.Outcome.notRun], false) :=
  rfl

/-- C7 counterexample: an empty action selection does not execute zero
steps — `main` coerces it to `--all` (build-system.py lines 201-203) and
selects the complete 8-step pipeline. -/
theorem BuildSystem.empty_selection_not_empty_run :
    (BuildSystem.selectedSteps
        (BuildSystem.effectiveArgs BuildSystem.noArgs)).length = 8 ∧
    ¬ ((BuildSystem.selectedSteps
        (BuildSystem.effectiveArgs BuildSystem.noArgs)).length = 0) :=
  ⟨rfl, by decide⟩

/-- C7 (as amended): with no action flag set, `main` substitutes `--all`
and runs the complete pipeline — clean, npm install, pip install, lint,
type-check, build, build-info, test — instead of an immediately-successful
empty run; only if every step passes is the overall flag `true`. -/
theorem BuildSystem.empty_selection_runs_full_pipeline :
    BuildSystem.effectiveArgs BuildSystem.noArgs = BuildSystem.allArgs ∧
    BuildSystem.selectedSteps (BuildSystem.effectiveArgs BuildSystem.noArgs) =
      [BuildSystem.StepId.cleanBuild, BuildSystem.StepId.installNpm,
        BuildSystem.StepId.installPy, BuildSystem.StepId.lintCode,
        BuildSystem.StepId.typeCheckStep, BuildSystem.StepId.buildFrontend,
        BuildSystem.StepId.genBuildInfo, BuildSystem.StepId.testCode] ∧
    BuildSystem.runChain (List.replicate 8 (Except.ok true)) true =
      Except.ok (List.replicate 8 BuildSystem.Outcome.success, true) :=
  ⟨rfl, rfl, rfl⟩

namespace TicruCli

/-- A managed child process of the `run` command (ticru-cli.py lines
70-71), abstracted by its observable behaviour: `exitTime` is the instant
it terminates of its own accord (`none` — it keeps running until someone
stops it), `exitCode` the code it would exit with. -/
structure ProcSpec where
  exitTime : Option Nat
  exitCode : Int
deriving DecidableEq

/-- `Process.join()` with no timeout: the caller, blocked since `clock`,
resumes once the process has exited — never, if the process does not exit
of its own accord (`none` propagates: a caller already blocked forever
stays blocked). -/
def joinProc (clock : Option Nat) (p : ProcSpec) : Option Nat :=
  match clock, p.exitTime with
  | some t, some te => some (max t te)
  | _, _ => none

/-- The wait of `run` (ticru-cli.py lines 91-93):
`backend_process.join()` then `frontend_process.join()`, sequentially.
The result is the time at which `run` returns on the no-interrupt path
(`none` — it never returns). -/
def run_wait (backend frontend : ProcSpec) : Option Nat :=
  joinProc (joinProc (some 0) backend) frontend

/-- The instant the supervisor's first (and only) blocking wait wakes: the
first statement executed after `start` is `backend_process.join()`, which
wakes when the backend exits — whatever the frontend does. -/
def run_first_wake (backend _frontend : ProcSpec) : Option Nat :=
  joinProc (some 0) backend

/-- Number of `terminate()` calls the no-interrupt path of `run` delivers:
lines 91-93 only join; `terminate()` appears solely in `signal_handler`
and in the `except KeyboardInterrupt` arm. -/
def run_terminations_normal : Nat := 0

/-- Exit code of the CLI process when `run` returns on the no-interrupt
path: `run` returns `None` regardless of the children's exit codes, so the
process exits 0 (`none` — `run` never returned). -/
def run_exit_code (backend frontend : ProcSpec) : Option Nat :=
  (run_wait backend frontend).map (fun _ => 0)

/-- Whether the frontend is still running at time `t` on the no-interrupt
path (on which nothing ever terminates it). -/
def frontendRunningAt (frontend : ProcSpec) (t : Nat) : Bool :=
  match frontend.exitTime with
  | none => true
  | some te => decide (t < te)

/-- A child as seen by the shutdown sequence: `termDelay` is how long after
`terminate()` it takes to exit (`none` — it ignores the termination
signal). -/
structure Child where
  termDelay : Option Nat
deriving DecidableEq

/-- What `signal_handler` (ticru-cli.py lines 74-81) does to one child:
`terminate()`, then `join(timeout=5)`, then nothing — there is no `kill()`
fallback, the handler goes straight on to `sys.exit(0)`. -/
structure HandlerTrace where
  terminateDelivered : Bool
  joinTimeout : Nat
  forceKilled : Bool
  stillRunning : Bool
deriving DecidableEq

/-- The per-child shutdown steps of `signal_handler`, read off lines
74-81: the child is still running afterwards exactly when it has not
exited within the 5-second join timeout. -/
def signal_handler_child (c : Child) : HandlerTrace :=
  ⟨true, 5,
    false,
    match c.termDelay with
    | some d => decide (5 < d)
    | none => true⟩

/-- The code the CLI process exits with at the end of `signal_handler`
(line 81: `sys.exit(0)`), whatever happened before. -/
def signal_handler_exit_code : Nat := 0

/-- The supervisor-side effects of one `signal_handler` invocation
(ticru-cli.py lines 74-84).  The handler is registered for SIGINT and
SIGTERM, stays registered, and consults no in-progress flag, so each
delivered signal runs the whole sequence again: `terminate()` to each
child and one more full shutdown sequence. -/
structure SupState where
  termsToBackend : Nat
  termsToFrontend : Nat
  shutdownSequences : Nat
deriving DecidableEq

/-- One invocation of `signal_handler`: unconditional — there is no
"already shutting down" guard anywhere in lines 74-84. -/
def signal_handler_step (s : SupState) : SupState :=
  ⟨s.termsToBackend + 1, s.termsToFrontend + 1, s.shutdownSequences + 1⟩

/-- Deliver a sequence of interrupt signals: each one re-invokes the
registered handler. -/
def deliver_signals (sigs : List Unit) (s : SupState) : SupState :=
  sigs.foldl (fun st _ => signal_handler_step st) s

/-- Helper: the handler is re-run once per delivered signal. -/
theorem deliver_signals_count (sigs : List Unit) (s : SupState) :
    (deliver_signals sigs s).shutdownSequences =
      s.shutdownSequences + sigs.length := by
  induction sigs generalizing s with
  | nil => rfl
  | cons a rest ih =>
    show (deliver_signals rest (signal_handler_step s)).shutdownSequences = _
    rw [ih]
    show s.shutdownSequences + 1 + rest.length = _
    simp only [List.length_cons]
    omega

/-- Result of the `requests.get` call of the `status` command: either a
response with a status code, or an exception — connection refused and the
2-second timeout both land in the bare `except:`. -/
inductive HttpResult
  | ok (status : Nat)
  | exn
deriving DecidableEq

/-- Probe outcome of the `status` command (ticru-cli.py lines 247-266). -/
inductive ProbeOutcome
  | reachable
  | unreachable
  | unhealthy
deriving DecidableEq

/-- The per-target branch of `status`: status code 200 — running
(Reachable); any other code — Unhealthy; any exception — not running
(Unreachable). -/
def probe (r : HttpResult) : ProbeOutcome :=
  match r with
  | HttpResult.ok s => if s = 200 then ProbeOutcome.reachable else ProbeOutcome.unhealthy
  | HttpResult.exn => ProbeOutcome.unreachable

/-- The `timeout=2` argument both `requests.get` calls pass (lines 249 and
260): the probe's configured bound, in seconds. -/
def status_timeout : Nat := 2

/-- The whole server-status part of the `status` command: a pure function
of the two probe responses — it owns no supervisor state to modify. -/
def status_command (api dev : HttpResult) : ProbeOutcome × ProbeOutcome :=
  (probe api, probe dev)

end TicruCli

/-- C1 evidence: `run` has no wait-any — it joins the backend, then the
frontend.  With the frontend exiting at t=1 and the backend at t=5, the
blocking wait wakes only at t=5, not at the first termination; with the
backend exiting unexpectedly (code 1) at t=1 and a frontend that never
exits on its own, `run` never returns, delivers no `terminate()`, and the
frontend is still running at every time t. -/
theorem TicruCli.run_sequential_join_behavior :
    TicruCli.run_first_wake ⟨some 5, 0⟩ ⟨some 1, 0⟩ = some 5 ∧
    min 5 1 = 1 ∧
    TicruCli.run_wait ⟨some 1, 1⟩ ⟨none, 0⟩ = none ∧
    TicruCli.run_terminations_normal = 0 ∧
    (∀ t : Nat, TicruCli.frontendRunningAt ⟨none, 0⟩ t = true) :=
  ⟨rfl, rfl, rfl, rfl, fun _ => rfl⟩

/-- C4 evidence: the shutdown sequence of `signal_handler` never issues a
forceful kill — for every child it only runs `terminate()` and
`join(timeout=5)`; a child that ignores the termination signal (or takes
longer than the 5-second timeout, e.g. 7 s) is still running when the
handler finishes with `sys.exit(0)`, while a child that exits within 3 s
is gone. -/
theorem TicruCli.shutdown_lacks_force_kill :
    (∀ c : TicruCli.Child,
      (TicruCli.signal_handler_child c).forceKilled = false) ∧
    (TicruCli.signal_handler_child ⟨none⟩).stillRunning = true ∧
    (TicruCli.signal_handler_child ⟨some 7⟩).stillRunning = true ∧
    (TicruCli.signal_handler_child ⟨some 3⟩).stillRunning = false ∧
    TicruCli.signal_handler_exit_code = 0 :=
  ⟨fun _ => rfl, rfl, by decide, by decide, rfl⟩

/-- C5 evidence: when the backend exits with error code 1 at t=1 and the
frontend exits cleanly at t=2, `run` returns (at t=2) with `None` and the
CLI process exits 0 — not non-zero; the interrupt path likewise always
ends in `sys.exit(0)`. -/
theorem TicruCli.run_exits_zero_despite_child_error :
    TicruCli.run_wait ⟨some 1, 1⟩ ⟨some 2, 0⟩ = some 2 ∧
    TicruCli.run_exit_code ⟨some 1, 1⟩ ⟨some 2, 0⟩ = some 0 ∧
    (⟨some 1, 1⟩ : TicruCli.ProcSpec).exitCode = 1 ∧
    TicruCli.signal_handler_exit_code = 0 :=
  ⟨rfl, rfl, rfl, rfl⟩

/-- C8: the `status` probe yields exactly one of the three outcomes for
every response; every exception — including the expiry of the configured
2-second timeout — yields Unreachable; and the command is a pure function
of the two probe responses, touching no supervisor state. -/
theorem TicruCli.probe_trichotomy_bounded :
    (∀ r : TicruCli.HttpResult,
      TicruCli.probe r = TicruCli.ProbeOutcome.reachable ∨
      TicruCli.probe r = TicruCli.ProbeOutcome.unreachable ∨
      TicruCli.probe r = TicruCli.ProbeOutcome.unhealthy) ∧
    TicruCli.probe TicruCli.HttpResult.exn =
      TicruCli.ProbeOutcome.unreachable ∧
    TicruCli.status_timeout = 2 ∧
    (∀ api dev : TicruCli.HttpResult,
      TicruCli.status_command api dev =
        (TicruCli.probe api, TicruCli.probe dev)) := by
  refine ⟨?_, rfl, rfl, fun _ _ => rfl⟩
  intro r
  cases r with
  | ok s =>
    by_cases h : s = 200
    · exact Or.inl (by simp [TicruCli.probe, h])
    · exact Or.inr (Or.inr (by simp [TicruCli.probe, h]))
  | exn => exact Or.inr (Or.inl rfl)

/-- C9 evidence: `signal_handler` keeps no in-progress flag and stays
registered, so two interrupts delivered during supervision run the full
shutdown sequence twice (and each child receives `terminate()` twice) —
in general, once per delivered signal, never collapsed to one. -/
theorem TicruCli.repeated_signals_rerun_shutdown :
    (TicruCli.deliver_signals [(), ()] ⟨0, 0, 0⟩).shutdownSequences = 2 ∧
    (TicruCli.deliver_signals [()] ⟨0, 0, 0⟩).shutdownSequences = 1 ∧
    (TicruCli.deliver_signals [(), ()] ⟨0, 0, 0⟩).termsToBackend = 2 ∧
    (∀ sigs : List Unit,
      (TicruCli.deliver_signals sigs ⟨0, 0, 0⟩).shutdownSequences =
        sigs.length) :=
  ⟨rfl, rfl, rfl, fun sigs => by
    rw [TicruCli.deliver_signals_count]
    simp⟩

namespace ApiServer

/-- The positive word list of `analyze_sentiment` (api-server.py line
132). -/
def positive_words : List String :=
  ["good", "great", "excellent", "amazing", "love", "wonderful"]

/-- The negative word list (line 133). -/
def negative_words : List String :=
  ["bad", "terrible", "awful", "hate", "poor", "worst"]

/-- Python's `str.lower()`, character by character (the word lists are
plain ASCII, for which this agrees with Python). -/
def lower (s : String) : String := String.map Char.toLower s

/-- Whether a character list begins with the pattern. -/
def startsWithChars : List Char → List Char → Bool
  | [], _ => true
  | _ :: _, [] => false
  | c :: cs, d :: ds => (c == d) && startsWithChars cs ds

/-- Whether the pattern occurs contiguously somewhere in the text —
Python's `word in text`. -/
def occursIn : List Char → List Char → Bool
  | pat, [] => startsWithChars pat []
  | pat, d :: ds => startsWithChars pat (d :: ds) || occursIn pat ds

/-- Python's substring test `word in text` on strings. -/
def wordIn (word text : String) : Bool := occursIn word.toList text.toList

/-- `pos_count = sum(1 for word in positive_words if word in text)`
(line 135). -/
def pos_count (text : String) : Nat :=
  (positive_words.filter (fun w => wordIn w text)).length

/-- `neg_count = sum(1 for word in negative_words if word in text)`
(line 136). -/
def neg_count (text : String) : Nat :=
  (negative_words.filter (fun w => wordIn w text)).length

/-- `total = pos_count + neg_count` (line 138), on the lowered request
text. -/
def sentiment_total (raw : String) : Nat :=
  pos_count (lower raw) + neg_count (lower raw)

/-- The score (lines 139-144): `0.0` when `total == 0`, otherwise
`(pos_count - neg_count) / total` — the division is only reached when
`total` is non-zero.  Exact rationals stand in for Python floats: with at
most six words per side, every comparison the code makes is decided
identically (the quantities compared differ by at least 1/60, far above
double rounding error). -/
def sentiment_score (raw : String) : Rat :=
  if sentiment_total raw = 0 then 0
  else ((pos_count (lower raw) : Rat) - (neg_count (lower raw) : Rat)) /
    (sentiment_total raw : Rat)

/-- The label (lines 141, 145-150): `"neutral"` when `total == 0`;
otherwise `"positive"` if `score > 0.2`, `"negative"` if `score < -0.2`,
else `"neutral"`. -/
def sentiment_label (raw : String) : String :=
  if sentiment_total raw = 0 then "neutral"
  else if 1 / 5 < sentiment_score raw then "positive"
  else if sentiment_score raw < -(1 / 5) then "negative"
  else "neutral"

/-- The confidence (lines 142, 151): `0.5` when `total == 0`, otherwise
`min(abs(score) + 0.5, 1.0)`. -/
def sentiment_confidence (raw : String) : Rat :=
  if sentiment_total raw = 0 then 1 / 2
  else min (|sentiment_score raw| + 1 / 2) 1

/-- The response body of `POST /api/sentiment` (lines 153-157). -/
structure SentimentResponse where
  score : Rat
  label : String
  confidence : Rat
deriving DecidableEq

/-- `analyze_sentiment` (api-server.py lines 127-157), as a total function
of the request text. -/
def analyze_sentiment (raw : String) : SentimentResponse :=
  ⟨sentiment_score raw, sentiment_label raw, sentiment_confidence raw⟩

/-- The cast of a non-zero total is positive. -/
theorem sentiment_total_cast_pos (raw : String)
    (h : ¬ sentiment_total raw = 0) : (0 : Rat) < (sentiment_total raw : Rat) := by
  have h1 : 0 < sentiment_total raw := Nat.pos_of_ne_zero h
  exact_mod_cast h1

/-- The score always lies in [-1, 1]. -/
theorem sentiment_score_bounds (raw : String) :
    -1 ≤ sentiment_score raw ∧ sentiment_score raw ≤ 1 := by
  unfold sentiment_score
  split_ifs with h
  · norm_num
  · have ht : (0 : Rat) < (sentiment_total raw : Rat) :=
      sentiment_total_cast_pos raw h
    have hpn : (sentiment_total raw : Rat) =
        (pos_count (lower raw) : Rat) + (neg_count (lower raw) : Rat) := by
      unfold sentiment_total
      push_cast
      ring
    have hp : (0 : Rat) ≤ (pos_count (lower raw) : Rat) := Nat.cast_nonneg _
    have hn : (0 : Rat) ≤ (neg_count (lower raw) : Rat) := Nat.cast_nonneg _
    constructor
    · rw [le_div_iff₀ ht]
      nlinarith
    · rw [div_le_one ht]
      nlinarith

/-- The confidence always lies in [1/2, 1]. -/
theorem sentiment_confidence_bounds (raw : String) :
    1 / 2 ≤ sentiment_confidence raw ∧ sentiment_confidence raw ≤ 1 := by
  unfold sentiment_confidence
  split_ifs with h
  · norm_num
  · constructor
    · apply le_min
      · have := abs_nonneg (sentiment_score raw)
        linarith
      · norm_num
    · exact min_le_right _ _

/-- The label is determined by the score exactly as the if-chain reads. -/
theorem sentiment_label_cases (raw : String) :
    (sentiment_label raw = "positive" ↔ 1 / 5 < sentiment_score raw) ∧
    (sentiment_label raw = "negative" ↔ sentiment_score raw < -(1 / 5)) ∧
    (sentiment_label raw = "neutral" ↔
      (-(1 / 5) ≤ sentiment_score raw ∧ sentiment_score raw ≤ 1 / 5)) := by
  have hsc0 : sentiment_total raw = 0 → sentiment_score raw = 0 := by
    intro h
    unfold sentiment_score
    rw [if_pos h]
  unfold sentiment_label
  split_ifs with h0 h1 h2
  · rw [hsc0 h0]
    refine ⟨⟨fun hx => absurd hx (by decide), fun hx => absurd hx (by norm_num)⟩,
      ⟨fun hx => absurd hx (by decide), fun hx => absurd hx (by norm_num)⟩,
      ⟨fun _ => by norm_num, fun _ => rfl⟩⟩
  · refine ⟨⟨fun _ => h1, fun _ => rfl⟩,
      ⟨fun hx => absurd hx (by decide), fun hx => absurd (by linarith : (1:Rat)/5 < -(1/5)) (by norm_num)⟩,
      ⟨fun hx => absurd hx (by decide), fun hx => absurd h1 (by push_neg; exact hx.2)⟩⟩
  · refine ⟨⟨fun hx => absurd hx (by decide), fun hx => absurd hx h1⟩,
      ⟨fun _ => h2, fun _ => rfl⟩,
      ⟨fun hx => absurd hx (by decide), fun hx => absurd h2 (by push_neg; exact hx.1)⟩⟩
  · push_neg at h1 h2
    refine ⟨⟨fun hx => absurd hx (by decide), fun hx => absurd hx (by push_neg; exact h1)⟩,
      ⟨fun hx => absurd hx (by decide), fun hx => absurd hx (by push_neg; exact h2)⟩,
      ⟨fun _ => ⟨h2, h1⟩, fun _ => rfl⟩⟩

end ApiServer

/-- C10: for every input text `analyze_sentiment` returns a total result:
the division `(pos_count - neg_count) / total` is guarded by `total == 0`
(when the counts are zero the score is 0, the label `"neutral"` and the
confidence 0.5); the score always lies in [-1, 1]; the confidence always
lies in [0.5, 1]; and the label is `"positive"` exactly when the score
exceeds 0.2, `"negative"` exactly when it is below -0.2, `"neutral"`
otherwise. -/
theorem ApiServer.analyze_sentiment_safe (raw : String) :
    (-1 ≤ (ApiServer.analyze_sentiment raw).score ∧
      (ApiServer.analyze_sentiment raw).score ≤ 1) ∧
    (1 / 2 ≤ (ApiServer.analyze_sentiment raw).confidence ∧
      (ApiServer.analyze_sentiment raw).confidence ≤ 1) ∧
    ((ApiServer.analyze_sentiment raw).label = "positive" ↔
      1 / 5 < (ApiServer.analyze_sentiment raw).score) ∧
    ((ApiServer.analyze_sentiment raw).label = "negative" ↔
      (ApiServer.analyze_sentiment raw).score < -(1 / 5)) ∧
    ((ApiServer.analyze_sentiment raw).label = "neutral" ↔
      (-(1 / 5) ≤ (ApiServer.analyze_sentiment raw).score ∧
        (ApiServer.analyze_sentiment raw).score ≤ 1 / 5)) ∧
    (ApiServer.sentiment_total raw = 0 →
      (ApiServer.analyze_sentiment raw).score = 0 ∧
      (ApiServer.analyze_sentiment raw).label = "neutral" ∧
      (ApiServer.analyze_sentiment raw).confidence = 1 / 2) := by
  obtain ⟨hc1, hc2⟩ := ApiServer.sentiment_confidence_bounds raw
  obtain ⟨hl1, hl2, hl3⟩ := ApiServer.sentiment_label_cases raw
  refine ⟨ApiServer.sentiment_score_bounds raw, ⟨hc1, hc2⟩, hl1, hl2, hl3, ?_⟩
  intro h
  refine ⟨?_, ?_, ?_⟩
  · show ApiServer.sentiment_score raw = 0
    unfold ApiServer.sentiment_score
    rw [if_pos h]
  · show ApiServer.sentiment_label raw = "neutral"
    unfold ApiServer.sentiment_label
    rw [if_pos h]
  · show ApiServer.sentiment_confidence raw = 1 / 2
    unfold ApiServer.sentiment_confidence
    rw [if_pos h]
